import Mathlib

/-!
Verification of the resilient publishing pipeline of the
social-compliance-generator repository: a shallow embedding of the
token lifecycle manager, the chunked media-upload protocol, the
provider-fallback selectors, the pipeline orchestrator and the replay
tool, together with proofs of the specified properties.

External effects (HTTP fetches, token refresh exchanges, blob storage,
clocks) are modelled as oracles passed in as function arguments; each
embedded function additionally returns the trace of external calls it
issued, so that claims about call counts and ordering are statable.
-/

namespace SCG

/-! ## Token lifecycle manager (src: X API service, `xApiRequest` / `refreshAccessToken`)

`xApiRequest(url, options, retry = true)` attaches the current access
token, issues the request, and on a 401 with `retry` still true performs
one `refreshAccessToken()` followed by one re-issue with `retry = false`.
`refreshAccessToken` throws when the token-endpoint exchange fails.

The fetch oracle `fetchStatus n` is the HTTP status of the n-th fetch
issued by this call; `refreshResult` is the outcome of the (at most one)
refresh exchange, `.error msg` standing for the exception thrown by
`refreshAccessToken`. The trace counts fetches issued and refresh
exchanges performed. -/

/-- Outcome of a call to the authenticated request wrapper: either the
response object handed back to the caller (whatever its status), or an
exception propagated out of the refresh exchange. -/
inductive XApiResult where
  | response (status : Nat)
  | thrown (msg : String)
deriving DecidableEq, Repr

/-- Count of external calls issued during one `xApiRequest` invocation. -/
structure XTrace where
  fetches : Nat
  refreshes : Nat
deriving DecidableEq, Repr

/-- The `retry = false` instance of `xApiRequest`: issue the fetch and
return the response unconditionally (the 401 branch is dead because
`retry` is false). -/
def xApiRequestNoRetry (fetchStatus : Nat → Nat) (st : XTrace) :
    XApiResult × XTrace :=
  let s := fetchStatus st.fetches
  (XApiResult.response s, { st with fetches := st.fetches + 1 })

/-- The `retry = true` instance of `xApiRequest`: issue the fetch; on a
401, perform the refresh exchange (propagating its exception on failure)
and re-issue the request once with `retry = false`; otherwise return the
response. -/
def xApiRequest (fetchStatus : Nat → Nat) (refreshResult : Except String Unit)
    (st : XTrace) : XApiResult × XTrace :=
  let s := fetchStatus st.fetches
  let st1 : XTrace := { st with fetches := st.fetches + 1 }
  if s = 401 then
    match refreshResult with
    | .ok _ =>
        xApiRequestNoRetry fetchStatus { st1 with refreshes := st1.refreshes + 1 }
    | .error e => (XApiResult.thrown e, { st1 with refreshes := st1.refreshes + 1 })
  else
    (XApiResult.response s, st1)

/-- A result is an exception (thrown error) rather than a returned response. -/
def XApiResult.isThrown : XApiResult → Bool
  | .thrown _ => true
  | .response _ => false

/-! ## Resumable chunked upload protocol (src: X API service, `uploadMediaV2`,
`initMediaUpload`, `appendMediaChunk`, `finalizeMediaUpload`,
`waitForMediaProcessing`)

The payload is modelled by its byte length; each embedded phase emits an
event into the trace. `UploadEnv` holds the answers of the platform: the INIT
result, the per-segment APPEND outcomes, the FINALIZE result and the
successive STATUS poll responses. Processing states are the raw strings
the code compares against. The poll loop gets a fuel argument (the code
loops on wall clock, unbounded in the number of iterations); `none`
means the fuel ran out before the loop exited, which the timeout
theorems show cannot happen past the wall-clock ceiling. -/

/-- Chunk size for video uploads (1MB for v2 API compatibility). -/
def CHUNK_SIZE : Nat := 1 * 1024 * 1024

/-- Maximum time to wait for media processing (10 minutes). -/
def MAX_PROCESSING_WAIT_MS : Nat := 600000

/-- The `processing_info` block of a media status response. -/
structure ProcessingInfo where
  state : String
  check_after_secs : Option Nat := none
  progress_percent : Option Nat := none
deriving DecidableEq, Repr

/-- The v2-format `data` block of a media status response. -/
structure MediaData where
  id : Option String := none
  media_key : Option String := none
  processing_info : Option ProcessingInfo := none
deriving DecidableEq, Repr

/-- Media status / finalize response, carrying `processing_info` either at
top level (v1.1 format) or nested under `data` (v2 format). -/
structure MediaStatusResponse where
  processing_info : Option ProcessingInfo := none
  data : Option MediaData := none
deriving DecidableEq, Repr

/-- The response-shape sniffing `resp.processing_info || resp.data?.processing_info`. -/
def orProcessingInfo (resp : MediaStatusResponse) : Option ProcessingInfo :=
  match resp.processing_info with
  | some info => some info
  | none => resp.data.bind (fun d => d.processing_info)

/-- The JavaScript default `check_after_secs || 5`: an absent or zero
(falsy) value falls back to 5 seconds. -/
def orFiveSecs : Option Nat → Nat
  | none => 5
  | some 0 => 5
  | some (n + 1) => n + 1

/-- Error thrown when the processing poll exceeds the wall-clock ceiling. -/
def mediaTimeoutMsg : String := "Media processing timeout exceeded (10 minutes)"

/-- Error thrown when the platform reports processing state failed. -/
def mediaProcessingFailedMsg : String := "Media processing failed"

/-- Events emitted by the upload protocol, in issue order. -/
inductive UploadEvent where
  | initEv (totalBytes : Nat) (mediaType mediaCategory : String)
  | appendEv (segmentIndex chunkLen : Nat)
  | finalizeEv
  | statusEv
  | settleEv
deriving DecidableEq, Repr

/-- After the poll loop exits: a platform-reported failed state throws,
anything else is success. -/
def waitFinish (state : String) : Except String Unit :=
  if state = "failed" then Except.error mediaProcessingFailedMsg else Except.ok ()

/-- The while-loop of `waitForMediaProcessing`: while the state is pending
or in_progress, throw on wall-clock timeout, otherwise sleep
`checkAfterSecs` seconds, re-poll the status endpoint and update state and
delay from the response (absent processing_info counts as succeeded).
`elapsed` accumulates the slept milliseconds, `idx` indexes the polls. -/
def waitLoop (statusAt : Nat → MediaStatusResponse) (fuel : Nat) (state : String)
    (checkAfterSecs elapsed idx : Nat) :
    Option (Except String Unit × List UploadEvent) :=
  if state = "pending" ∨ state = "in_progress" then
    if elapsed > MAX_PROCESSING_WAIT_MS then
      some (Except.error mediaTimeoutMsg, [])
    else
      match fuel with
      | 0 => none
      | fuel + 1 =>
        match orProcessingInfo (statusAt idx) with
        | some info =>
            match waitLoop statusAt fuel info.state (orFiveSecs info.check_after_secs)
                (elapsed + checkAfterSecs * 1000) (idx + 1) with
            | some (r, evs) => some (r, UploadEvent.statusEv :: evs)
            | none => none
        | none =>
            match waitLoop statusAt fuel "succeeded" checkAfterSecs
                (elapsed + checkAfterSecs * 1000) (idx + 1) with
            | some (r, evs) => some (r, UploadEvent.statusEv :: evs)
            | none => none
  else
    some (waitFinish state, [])

/-- Wait for media processing to complete: run the poll loop starting from
the processing_info returned by FINALIZE, with the elapsed clock at zero. -/
def waitForMediaProcessing (statusAt : Nat → MediaStatusResponse)
    (processingInfo : ProcessingInfo) (fuel : Nat) :
    Option (Except String Unit × List UploadEvent) :=
  waitLoop statusAt fuel processingInfo.state (orFiveSecs processingInfo.check_after_secs) 0 0

/-- Platform answers for one chunked upload. -/
structure UploadEnv where
  initResult : Except String String
  appendResult : Nat → Except String Unit
  finalizeResult : Except String MediaStatusResponse
  statusAt : Nat → MediaStatusResponse

/-- The chunk count `Math.ceil(totalBytes / CHUNK_SIZE)` over naturals. -/
def numChunks (totalBytes : Nat) : Nat :=
  (totalBytes + CHUNK_SIZE - 1) / CHUNK_SIZE

/-- Byte length of the i-th chunk, `fileBuffer.subarray(start, end)` with
`end = Math.min(start + CHUNK_SIZE, totalBytes)`. -/
def chunkLenAt (totalBytes i : Nat) : Nat :=
  min (i * CHUNK_SIZE + CHUNK_SIZE) totalBytes - i * CHUNK_SIZE

/-- The sequential append loop `for (let i = 0; i < numChunks; i++)`,
with `n` chunks remaining starting at segment index `i`; stops at the
first failed append. -/
def appendLoop (env : UploadEnv) (totalBytes : Nat) :
    Nat → Nat → Except String Unit × List UploadEvent
  | _, 0 => (Except.ok (), [])
  | i, n + 1 =>
    match env.appendResult i with
    | Except.error e => (Except.error e, [UploadEvent.appendEv i (chunkLenAt totalBytes i)])
    | Except.ok _ =>
      let rest := appendLoop env totalBytes (i + 1) n
      (rest.1, UploadEvent.appendEv i (chunkLenAt totalBytes i) :: rest.2)

/-- The upload driver `uploadMediaV2`: initialize, append all chunks in order, finalize, then
either poll for processing (when the finalize response carries
processing_info) or wait a short settle delay and return the media id.
The trace is the INIT event followed by the append events followed by the
FINALIZE event and any poll / settle events. -/
def uploadMediaV2 (totalBytes : Nat) (mediaType mediaCategory : String)
    (env : UploadEnv) (fuel : Nat) :
    Option (Except String String × List UploadEvent) :=
  match env.initResult with
  | Except.error e => some (Except.error e, [UploadEvent.initEv totalBytes mediaType mediaCategory])
  | Except.ok mediaId =>
    match appendLoop env totalBytes 0 (numChunks totalBytes) with
    | (Except.error e, aevs) =>
        some (Except.error e, UploadEvent.initEv totalBytes mediaType mediaCategory :: aevs)
    | (Except.ok _, aevs) =>
      match env.finalizeResult with
      | Except.error e =>
          some (Except.error e, UploadEvent.initEv totalBytes mediaType mediaCategory ::
            (aevs ++ [UploadEvent.finalizeEv]))
      | Except.ok finalizeData =>
        match orProcessingInfo finalizeData with
        | some procInfo =>
          match waitForMediaProcessing env.statusAt procInfo fuel with
          | none => none
          | some (Except.error e, wevs) =>
              some (Except.error e, UploadEvent.initEv totalBytes mediaType mediaCategory ::
                (aevs ++ UploadEvent.finalizeEv :: wevs))
          | some (Except.ok _, wevs) =>
              some (Except.ok mediaId, UploadEvent.initEv totalBytes mediaType mediaCategory ::
                (aevs ++ UploadEvent.finalizeEv :: wevs))
        | none =>
          some (Except.ok mediaId, UploadEvent.initEv totalBytes mediaType mediaCategory ::
            (aevs ++ [UploadEvent.finalizeEv, UploadEvent.settleEv]))

/-! ## Workflow data model (src: types/workflow.ts)

Timestamps (ISO strings produced by the clock in the code) are modelled
as abstract naturals: each stamp site uses a distinct tick. The
relevance score of a search result, a floating-point number in the
source, is modelled integrally; no claim depends on its value. -/

/-- Workflow step status. -/
inductive StepStatus where
  | pending
  | in_progress
  | completed
  | failed
  | skipped
deriving DecidableEq, Repr

/-- Workflow run status. The enum includes a partial member, rendered by
the replay list command, whose reachability is under study. -/
inductive RunStatus where
  | running
  | completed
  | failed
  | partialStatus
deriving DecidableEq, Repr

/-- One ranked search result. -/
structure TavilySearchResult where
  title : String
  url : String
  content : String
  score : Int
deriving DecidableEq, Repr

/-- Generated content from the LLM. -/
structure GeneratedContent where
  postContent : String
  imagePrompt : String
  videoPrompt : String
  selectedTopic : String
deriving DecidableEq, Repr

/-- Individual workflow step record. -/
structure WorkflowStep (α : Type) where
  status : StepStatus
  startedAt : Option Nat := none
  completedAt : Option Nat := none
  error : Option String := none
  data : Option α := none
deriving DecidableEq, Repr

/-- Data payload of the news-search step. -/
structure NewsSearchData where
  query : Option String := none
  results : List TavilySearchResult
deriving DecidableEq, Repr

/-- Data payload of the image-generation step. -/
structure ImageGenData where
  prompt : String
  imageKey : Option String := none
deriving DecidableEq, Repr

/-- Data payload of the video-generation step. -/
structure VideoGenData where
  prompt : String
  provider : Option String := none
  videoKey : Option String := none
deriving DecidableEq, Repr

/-- Data payload of the posting step. -/
structure PostingData where
  postId : Option String := none
  mediaType : String
  postContent : String
deriving DecidableEq, Repr

/-- Complete workflow run record. -/
structure WorkflowRun where
  runId : String
  status : RunStatus
  startedAt : Nat
  completedAt : Option Nat := none
  error : Option String := none
  newsSearch : WorkflowStep NewsSearchData
  contentGeneration : WorkflowStep GeneratedContent
  imageGeneration : WorkflowStep ImageGenData
  videoGeneration : WorkflowStep VideoGenData
  posting : WorkflowStep PostingData
deriving DecidableEq, Repr

/-- Create a new workflow run with initial state. -/
def createWorkflowRun (runId : String) (now : Nat) : WorkflowRun :=
  { runId := runId
    status := RunStatus.running
    startedAt := now
    newsSearch := { status := StepStatus.pending }
    contentGeneration := { status := StepStatus.pending }
    imageGeneration := { status := StepStatus.pending }
    videoGeneration := { status := StepStatus.pending }
    posting := { status := StepStatus.pending } }

/-! ## Pipeline orchestrator (src: generatePost)

The collaborators (search, LLM, image, video, publish, blob storage) are
oracles in `RunEnv`; `.error msg` stands for a thrown exception. The
outcome records the final in-memory run, the list of records persisted by
successive saveWorkflowMetadata calls, in order, and the error
propagated out of the orchestrator (the process then exits non-zero). -/

/-- External collaborator outcomes for one orchestrator run. -/
structure RunEnv where
  searchResult : Except String (List TavilySearchResult)
  contentResult : Except String GeneratedContent
  imageResult : Except String String
  imageKey : String
  preferredProvider : String
  videoResult : Except String (String × String)
  videoKey : String
  postVideoResult : Except String String
  postImageResult : Except String String

/-- Outcome of one orchestrator run. -/
structure RunOutcome where
  finalRun : WorkflowRun
  snapshots : List WorkflowRun
  thrown : Option String
deriving Repr

/-- The catch block of the orchestrator: mark the run failed, stamp
completedAt, record the top-level error, persist, and re-throw. -/
def failRun (w : WorkflowRun) (snaps : List WorkflowRun) (msg : String) (t : Nat) :
    RunOutcome :=
  let wf := { w with status := RunStatus.failed, completedAt := some t, error := some msg }
  { finalRun := wf, snapshots := snaps ++ [wf], thrown := some msg }

/-- Step 5 of the orchestrator: choose video-post vs image-post solely by
whether a video artifact exists, mark posting in_progress with mediaType
and content, publish, then on success mark the posting step and the whole
run completed in one final persisted record. -/
def postingStep (w8 : WorkflowRun) (snaps : List WorkflowRun) (content : GeneratedContent)
    (videoPath : Option String) (env : RunEnv) : RunOutcome :=
  let mediaType := match videoPath with
    | some _ => "video"
    | none => "image"
  let d9 : PostingData := { mediaType := mediaType, postContent := content.postContent }
  let w9 := { w8 with posting := { status := StepStatus.in_progress, startedAt := some 9, data := some d9 } }
  let postResult := match videoPath with
    | some _ => env.postVideoResult
    | none => env.postImageResult
  match postResult with
  | Except.error e => failRun w9 (snaps ++ [w9]) e 10
  | Except.ok postId =>
    let d10 : PostingData :=
      { postId := some postId, mediaType := mediaType, postContent := content.postContent }
    let w10 := { w9 with
      posting := { w9.posting with status := StepStatus.completed, completedAt := some 10, data := some d10 }
      status := RunStatus.completed
      completedAt := some 11 }
    { finalRun := w10, snapshots := snaps ++ [w9, w10], thrown := none }

/-- The orchestrator `generatePost`: search, content generation, image
generation, video generation (failure degrades to image-only), publish.
Step records are stamped and persisted before and after each step; search
and content and image and publish failures reach the catch block, video
failure is caught locally, marked on its own step, and the run continues. -/
def generatePost (runId : String) (env : RunEnv) : RunOutcome :=
  let w0 := createWorkflowRun runId 0
  let w1 := { w0 with newsSearch := { w0.newsSearch with
    status := StepStatus.in_progress, startedAt := some 1 } }
  match env.searchResult with
  | Except.error e => failRun w1 [w1] e 2
  | Except.ok newsResults =>
    if newsResults.length = 0 then
      let w2 := { w1 with newsSearch := { w1.newsSearch with
        status := StepStatus.failed, error := some "No AI news found", completedAt := some 2 } }
      failRun w2 [w1, w2] "No AI news found" 3
    else
      let w2 := { w1 with newsSearch := { w1.newsSearch with
        status := StepStatus.completed, completedAt := some 2,
        data := some { results := newsResults } } }
      let w3 := { w2 with contentGeneration := { w2.contentGeneration with
        status := StepStatus.in_progress, startedAt := some 3 } }
      match env.contentResult with
      | Except.error e => failRun w3 [w1, w2, w3] e 4
      | Except.ok content =>
        let w4 := { w3 with contentGeneration := { w3.contentGeneration with
          status := StepStatus.completed, completedAt := some 4, data := some content } }
        let w5 := { w4 with imageGeneration := { w4.imageGeneration with
          status := StepStatus.in_progress, startedAt := some 5,
          data := some { prompt := content.imagePrompt } } }
        match env.imageResult with
        | Except.error e => failRun w5 [w1, w2, w3, w4, w5] e 6
        | Except.ok _ =>
          let w6 := { w5 with imageGeneration := { w5.imageGeneration with
            status := StepStatus.completed, completedAt := some 6,
            data := some { prompt := content.imagePrompt, imageKey := some env.imageKey } } }
          let d7 : VideoGenData :=
            { prompt := content.videoPrompt, provider := some env.preferredProvider }
          let w7 := { w6 with videoGeneration := { w6.videoGeneration with
            status := StepStatus.in_progress, startedAt := some 7, data := some d7 } }
          match env.videoResult with
          | Except.ok vres =>
            let d8 : VideoGenData :=
              { prompt := content.videoPrompt, provider := some vres.2,
                videoKey := some env.videoKey }
            let w8 := { w7 with videoGeneration := { w7.videoGeneration with
              status := StepStatus.completed, completedAt := some 8, data := some d8 } }
            postingStep w8 [w1, w2, w3, w4, w5, w6, w7, w8] content (some vres.1) env
          | Except.error ve =>
            let w8 := { w7 with videoGeneration := { w7.videoGeneration with
              status := StepStatus.failed, completedAt := some 8, error := some ve } }
            postingStep w8 [w1, w2, w3, w4, w5, w6, w7, w8] content none env

/-! ## Replay tool (src: replay.ts)

The stored record (read from blob storage) is an `Option WorkflowRun`;
downloads and the publish call are oracles. The outcome carries the
result (guard refusals correspond to non-zero process exits), the number
of platform post calls issued, and the records written back to storage. -/

/-- JavaScript truthiness of an optional string field: absent, null and
the empty string are falsy. -/
def truthyStr : Option String → Bool
  | none => false
  | some s => s != ""

/-- The `workflow.posting.data?.postId` optional chain. -/
def postingPostId (w : WorkflowRun) : Option String :=
  match w.posting.data with
  | some d => d.postId
  | none => none

/-- The `workflow.imageGeneration.data?.imageKey` optional chain. -/
def imageKeyOf (w : WorkflowRun) : Option String :=
  match w.imageGeneration.data with
  | some d => d.imageKey
  | none => none

/-- The `workflow.videoGeneration.data?.videoKey` optional chain. -/
def videoKeyOf (w : WorkflowRun) : Option String :=
  match w.videoGeneration.data with
  | some d => d.videoKey
  | none => none

/-- Oracles for one replay `post` invocation. -/
structure ReplayEnv where
  downloadVideoResult : Except String String
  downloadImageResult : Except String String
  postVideoResult : Except String String
  postImageResult : Except String String

/-- Result of a replay `post` invocation. Every constructor except
`posted` makes the process exit non-zero. -/
inductive ReplayResult where
  | notFound
  | alreadyPosted
  | noContent
  | noMedia
  | posted (postId : String) (mediaType : String)
  | thrown (msg : String)
deriving DecidableEq, Repr

/-- Observable outcome of a replay `post` invocation. -/
structure ReplayOutcome where
  result : ReplayResult
  postsIssued : Nat
  saved : List WorkflowRun
deriving Repr

/-- Success path of `repostRun`: mark the posting step completed with the
new post id and media type, mark the run completed, persist once. -/
def finishRepost (workflow : WorkflowRun) (content : GeneratedContent)
    (postId mediaType : String) : ReplayOutcome :=
  let d : PostingData :=
    { postId := some postId, mediaType := mediaType, postContent := content.postContent }
  let w2 := { workflow with
    posting := { workflow.posting with status := StepStatus.completed, completedAt := some 1, data := some d }
    status := RunStatus.completed
    completedAt := some 2 }
  { result := ReplayResult.posted postId mediaType, postsIssued := 1, saved := [w2] }

/-- The replay post command `repostRun`: refuse when the record is missing, when the posting step
is completed with a truthy recorded postId (idempotency guard), when no
truthy generated postContent exists, or when neither media key is truthy;
otherwise download the artifacts (video first), publish video if a video
path exists else image, and on success update and re-persist the record. -/
def repostRun (record : Option WorkflowRun) (env : ReplayEnv) : ReplayOutcome :=
  match record with
  | none => { result := ReplayResult.notFound, postsIssued := 0, saved := [] }
  | some workflow =>
    if workflow.posting.status == StepStatus.completed && truthyStr (postingPostId workflow) then
      { result := ReplayResult.alreadyPosted, postsIssued := 0, saved := [] }
    else
      match workflow.contentGeneration.data with
      | none => { result := ReplayResult.noContent, postsIssued := 0, saved := [] }
      | some content =>
        if content.postContent == "" then
          { result := ReplayResult.noContent, postsIssued := 0, saved := [] }
        else
          let hasImage := truthyStr (imageKeyOf workflow)
          let hasVideo := truthyStr (videoKeyOf workflow)
          if !hasImage && !hasVideo then
            { result := ReplayResult.noMedia, postsIssued := 0, saved := [] }
          else
            match (if hasVideo then env.downloadVideoResult.map some else Except.ok none) with
            | Except.error e => { result := ReplayResult.thrown e, postsIssued := 0, saved := [] }
            | Except.ok videoPath =>
              match (if hasImage then env.downloadImageResult.map some else Except.ok none) with
              | Except.error e =>
                  { result := ReplayResult.thrown e, postsIssued := 0, saved := [] }
              | Except.ok imagePath =>
                match videoPath with
                | some _ =>
                  match env.postVideoResult with
                  | Except.error e =>
                      { result := ReplayResult.thrown e, postsIssued := 1, saved := [] }
                  | Except.ok postId => finishRepost workflow content postId "video"
                | none =>
                  match imagePath with
                  | some _ =>
                    match env.postImageResult with
                    | Except.error e =>
                        { result := ReplayResult.thrown e, postsIssued := 1, saved := [] }
                    | Except.ok postId => finishRepost workflow content postId "image"
                  | none =>
                    { result := ReplayResult.thrown "No media available for posting",
                      postsIssued := 0, saved := [] }

/-- A stored record whose posting step is completed without a recorded
postId, with generated content and a stored image artifact. -/
def completedNoPostIdRecord : WorkflowRun :=
  { runId := "r1"
    status := RunStatus.running
    startedAt := 0
    newsSearch := { status := StepStatus.completed }
    contentGeneration := { status := StepStatus.completed, data := some ⟨"hello", "ip", "vp", "st"⟩ }
    imageGeneration := { status := StepStatus.completed, data := some { prompt := "ip", imageKey := some "img-key" } }
    videoGeneration := { status := StepStatus.failed }
    posting := { status := StepStatus.completed, data := some { mediaType := "image", postContent := "hello" } } }

/-- The same stored record, with a postId recorded on the posting step. -/
def completedWithPostIdRecord : WorkflowRun :=
  { completedNoPostIdRecord with
    posting := { status := StepStatus.completed, data := some { postId := some "p0", mediaType := "image", postContent := "hello" } } }

/-- A replay environment where downloads and platform posts succeed. -/
def allOkReplayEnv : ReplayEnv :=
  ⟨Except.ok "v.mp4", Except.ok "i.png", Except.ok "pv1", Except.ok "pi1"⟩

/-- Status icon of the replay `list` rendering, including its branch for
the partial status. -/
def statusIcon (s : RunStatus) : String :=
  if s == RunStatus.completed then "[OK]"
  else if s == RunStatus.failed then "[FAIL]"
  else if s == RunStatus.partialStatus then "[PARTIAL]"
  else "[RUNNING]"

/-! ## Step-status transition predicates (for the forward-only invariant) -/

/-- Rank of a step status: pending before in_progress before the terminal
statuses. -/
def statusRank : StepStatus → Nat
  | StepStatus.pending => 0
  | StepStatus.in_progress => 1
  | StepStatus.completed => 2
  | StepStatus.failed => 2
  | StepStatus.skipped => 2

/-- One transition is forward when the status is unchanged or its rank
strictly increases; in particular a terminal status can never change. -/
def statusForwardB (a b : StepStatus) : Bool :=
  a == b || decide (statusRank a < statusRank b)

/-- All consecutive transitions in a status history are forward. -/
def chainOkB : List StepStatus → Bool
  | [] => true
  | [_] => true
  | a :: b :: rest => statusForwardB a b && chainOkB (b :: rest)

/-- The status history of every step across the persisted snapshots of a
run moves strictly forward. -/
def runForwardOk (o : RunOutcome) : Bool :=
  chainOkB (o.snapshots.map (fun w => w.newsSearch.status)) &&
  chainOkB (o.snapshots.map (fun w => w.contentGeneration.status)) &&
  chainOkB (o.snapshots.map (fun w => w.imageGeneration.status)) &&
  chainOkB (o.snapshots.map (fun w => w.videoGeneration.status)) &&
  chainOkB (o.snapshots.map (fun w => w.posting.status))

/-- A replayed record agrees with the original on every step but posting. -/
def repostPreservesSteps (w w2 : WorkflowRun) : Bool :=
  w2.newsSearch == w.newsSearch && w2.contentGeneration == w.contentGeneration &&
  w2.imageGeneration == w.imageGeneration && w2.videoGeneration == w.videoGeneration

/-! ## Image provider fallback (src: services/image, `generateImage`)

The model list is fixed; the generation attempt (API call plus response
parsing, anything thrown inside the try block) is an oracle from model id
to an image path or an error message. The trace lists the model ids
attempted, in order. -/

/-- The substring test `msg.includes(pat)`. -/
def containsSub (s pat : String) : Bool :=
  decide (pat.toList <:+: s.toList)

/-- Recoverable (try the fallback model): rate limit or model-not-found. -/
def isRecoverableError (msg : String) : Bool :=
  containsSub msg "429" || containsSub msg "RESOURCE_EXHAUSTED" ||
  containsSub msg "404" || containsSub msg "NOT_FOUND"

/-- An image model entry. -/
structure ImageModel where
  id : String
  name : String
deriving DecidableEq, Repr

/-- Primary image model. -/
def PRIMARY_MODEL : String := "gemini-2.5-flash-image"

/-- Fallback image model. -/
def FALLBACK_MODEL : String := "gemini-3-pro-image-preview"

/-- The ordered image-model list. -/
def IMAGE_MODELS : List ImageModel :=
  [{ id := PRIMARY_MODEL, name := "Gemini 2.5 Flash Image" },
   { id := FALLBACK_MODEL, name := "Gemini 3 Pro Image" }]

/-- The message of `lastError?.message` (null prints as undefined). -/
def lastErrMsg : Option String → String
  | some e => e
  | none => "undefined"

/-- The aggregate error thrown when every model failed recoverably. -/
def allModelsMsg (lastError : Option String) : String :=
  "All image generation models are rate limited. Last error: " ++ lastErrMsg lastError

/-- The for-loop of `generateImage`: try each model in order; return the
first success; on a recoverable error record it and continue; on any
other error abort rethrowing it; after the loop throw the aggregate
error referencing the last error. -/
def generateImageLoop (tryGen : String → Except String String) :
    List ImageModel → Option String → Except String String × List String
  | [], lastError => (Except.error (allModelsMsg lastError), [])
  | m :: rest, _ =>
    match tryGen m.id with
    | Except.ok imagePath => (Except.ok imagePath, [m.id])
    | Except.error e =>
      if isRecoverableError e then
        let r := generateImageLoop tryGen rest (some e)
        (r.1, m.id :: r.2)
      else (Except.error e, [m.id])

/-- The selector `generateImage` over the fixed ordered model list. -/
def generateImage (tryGen : String → Except String String) :
    Except String String × List String :=
  generateImageLoop tryGen IMAGE_MODELS none

/-! ## Video API selection (src: services/video-api, `generateVideo`)

The configuration (preferred provider variable, which credentials are
present) and the two concrete providers are oracles. The trace lists the
providers actually invoked. -/

/-- The two video API providers. -/
inductive VideoApiProvider where
  | veo
  | sora
deriving DecidableEq, Repr

/-- Environment of one `generateVideo` call. -/
structure VideoEnv where
  preferredRaw : Option String
  googleConfigured : Bool
  openaiConfigured : Bool
  veoResult : Except String String
  soraResult : Except String String

/-- The configuration reader `getVideoApiProvider`: default veo, accept veo and sora (case
insensitively), throw on anything else. -/
def getVideoApiProvider (pref : Option String) : Except String VideoApiProvider :=
  match pref with
  | none => Except.ok VideoApiProvider.veo
  | some s =>
    let configured := s.toLower
    if configured = "" ∨ configured = "veo" then Except.ok VideoApiProvider.veo
    else if configured = "sora" then Except.ok VideoApiProvider.sora
    else Except.error ("Invalid PREFERRED_VIDEO_API value: " ++ s)

/-- Credential presence per provider. -/
def isProviderConfigured (env : VideoEnv) : VideoApiProvider → Bool
  | VideoApiProvider.veo => env.googleConfigured
  | VideoApiProvider.sora => env.openaiConfigured

/-- Dispatch to the provider implementation. -/
def generateVideoWithProvider (env : VideoEnv) : VideoApiProvider → Except String String
  | VideoApiProvider.veo => env.veoResult
  | VideoApiProvider.sora => env.soraResult

/-- The alternate of a provider (the `preferred === veo ? sora : veo`
expression). -/
def alternateOf : VideoApiProvider → VideoApiProvider
  | VideoApiProvider.veo => VideoApiProvider.sora
  | VideoApiProvider.sora => VideoApiProvider.veo

/-- Error thrown when neither provider has credentials. -/
def noVideoApiMsg : String :=
  "No video API configured. Set either GOOGLE_CLOUD_PROJECT/GOOGLE_API_KEY for Veo or OPENAI_API_KEY for Sora."

/-- The video entry point `generateVideo`: resolve the preferred provider from configuration;
if it lacks credentials fall back to the alternate provider when that one
is configured, else throw; call the selected provider once and propagate
any error it raises. -/
def generateVideo (env : VideoEnv) :
    Except String (String × VideoApiProvider) × List VideoApiProvider :=
  match getVideoApiProvider env.preferredRaw with
  | Except.error e => (Except.error e, [])
  | Except.ok preferredProvider =>
    if !(isProviderConfigured env preferredProvider) then
      let alternateProvider := alternateOf preferredProvider
      if isProviderConfigured env alternateProvider then
        (match generateVideoWithProvider env alternateProvider with
          | Except.ok videoPath => Except.ok (videoPath, alternateProvider)
          | Except.error e => Except.error e, [alternateProvider])
      else (Except.error noVideoApiMsg, [])
    else
      (match generateVideoWithProvider env preferredProvider with
        | Except.ok videoPath => Except.ok (videoPath, preferredProvider)
        | Except.error e => Except.error e, [preferredProvider])

end SCG

namespace SCG

/-! ## Theorems: token lifecycle manager (C1) -/

/-- C1 counterexample: with every fetch answering 401 and a succeeding
refresh exchange, the wrapper performs one refresh and one retry and then
RETURNS the second 401 response to its caller; the call does not
terminate in a thrown credential-refresh-failed error as the claim
states (the enclosing operation later fails from the response status). -/
theorem C1_counterexample :
    xApiRequest (fun _ => 401) (Except.ok ()) ⟨0, 0⟩ =
      (XApiResult.response 401, ⟨2, 1⟩) ∧
    (xApiRequest (fun _ => 401) (Except.ok ()) ⟨0, 0⟩).1.isThrown = false := by
  constructor <;> rfl

/-- C1 (amended): at most one refresh-and-retry cycle per call. A non-401
first response is returned after one fetch and no refresh; a 401 followed
by a successful refresh gives exactly two fetches and one refresh and the
second response is returned whatever its status (no third attempt, no
second refresh); a failing refresh exchange propagates the refresh error
after one fetch and one refresh attempt. -/
theorem C1_xApiRequest_single_refresh_cycle (fetchStatus : Nat → Nat)
    (refreshResult : Except String Unit) :
    (fetchStatus 0 ≠ 401 →
      xApiRequest fetchStatus refreshResult ⟨0, 0⟩ =
        (XApiResult.response (fetchStatus 0), ⟨1, 0⟩)) ∧
    (fetchStatus 0 = 401 → refreshResult = Except.ok () →
      xApiRequest fetchStatus refreshResult ⟨0, 0⟩ =
        (XApiResult.response (fetchStatus 1), ⟨2, 1⟩)) ∧
    (∀ e, fetchStatus 0 = 401 → refreshResult = Except.error e →
      xApiRequest fetchStatus refreshResult ⟨0, 0⟩ =
        (XApiResult.thrown e, ⟨1, 1⟩)) := by
  refine ⟨fun h => ?_, fun h hr => ?_, fun e h hr => ?_⟩
  · simp [xApiRequest, xApiRequestNoRetry, h]
  · simp [xApiRequest, xApiRequestNoRetry, h, hr]
  · simp [xApiRequest, xApiRequestNoRetry, h, hr]

/-- C1 witness: the amended theorem applied at concrete oracles. -/
theorem C1_witness :
    xApiRequest (fun _ => 401) (Except.error "Failed to refresh token: 400") ⟨0, 0⟩ =
      (XApiResult.thrown "Failed to refresh token: 400", ⟨1, 1⟩) :=
  (C1_xApiRequest_single_refresh_cycle (fun _ => 401)
    (Except.error "Failed to refresh token: 400")).2.2
    "Failed to refresh token: 400" rfl rfl

/-! ## Theorems: chunked upload protocol (C2, C6) -/

/-- When every append succeeds, the append loop issues one append per
remaining chunk, with consecutive segment indices. -/
theorem appendLoop_all_ok (env : UploadEnv) (totalBytes : Nat)
    (h : ∀ j, env.appendResult j = Except.ok ()) :
    ∀ n i, appendLoop env totalBytes i n =
      (Except.ok (), (List.range' i n).map
        (fun j => UploadEvent.appendEv j (chunkLenAt totalBytes j))) := by
  intro n
  induction n with
  | zero => intro i; simp [appendLoop]
  | succ n ih =>
      intro i
      simp [appendLoop, h i, ih (i + 1), List.range'_succ]

/-- Every event emitted by the append loop is an append event. -/
theorem appendLoop_events_append_only (env : UploadEnv) (totalBytes : Nat) :
    ∀ n i, ∀ ev ∈ (appendLoop env totalBytes i n).2,
      ∃ j len, ev = UploadEvent.appendEv j len := by
  intro n
  induction n with
  | zero => intro i ev hev; simp [appendLoop] at hev
  | succ n ih =>
      intro i ev hev
      rw [appendLoop] at hev
      rcases hres : env.appendResult i with e | u
      · rw [hres] at hev
        simp at hev
        exact ⟨i, chunkLenAt totalBytes i, hev⟩
      · rw [hres] at hev
        simp at hev
        rcases hev with hev | hev
        · exact ⟨i, chunkLenAt totalBytes i, hev⟩
        · exact ih (i + 1) ev hev

/-- If the append loop succeeded, every append in its index range was
answered with success by the platform. -/
theorem appendLoop_ok_all_ok (env : UploadEnv) (totalBytes : Nat) :
    ∀ n i, (appendLoop env totalBytes i n).1 = Except.ok () →
      ∀ j, i ≤ j → j < i + n → env.appendResult j = Except.ok () := by
  intro n
  induction n with
  | zero => intro i _ j hij hj; omega
  | succ n ih =>
      intro i hok j hij hj
      rw [appendLoop] at hok
      rcases hres : env.appendResult i with e | u
      · rw [hres] at hok; simp at hok
      · rcases Nat.eq_or_lt_of_le hij with rfl | hlt
        · rw [hres]
        · rw [hres] at hok
          simp at hok
          exact ih (i + 1) hok j hlt (by omega)

/-- Every event emitted by the processing-poll loop is a status poll. -/
theorem waitLoop_events_status_only (statusAt : Nat → MediaStatusResponse) :
    ∀ fuel state cas elapsed idx res,
      waitLoop statusAt fuel state cas elapsed idx = some res →
      ∀ ev ∈ res.2, ev = UploadEvent.statusEv := by
  intro fuel
  induction fuel with
  | zero =>
      intro state cas elapsed idx res hres ev hev
      rw [waitLoop] at hres
      split at hres
      · split at hres
        · cases hres; simp at hev
        · cases hres
      · cases hres; simp at hev
  | succ fuel ih =>
      intro state cas elapsed idx res hres ev hev
      rw [waitLoop] at hres
      split at hres
      · split at hres
        · cases hres; simp at hev
        · rcases hpi : orProcessingInfo (statusAt idx) with _ | info
          · rw [hpi] at hres
            simp only at hres
            rcases hrec : waitLoop statusAt fuel "succeeded" cas (elapsed + cas * 1000)
                (idx + 1) with _ | ⟨r, evs⟩
            · rw [hrec] at hres; cases hres
            · rw [hrec] at hres
              cases hres
              simp at hev
              rcases hev with rfl | hev
              · rfl
              · exact ih _ _ _ _ _ hrec ev hev
          · rw [hpi] at hres
            simp only at hres
            rcases hrec : waitLoop statusAt fuel info.state
                (orFiveSecs info.check_after_secs) (elapsed + cas * 1000)
                (idx + 1) with _ | ⟨r, evs⟩
            · rw [hrec] at hres; cases hres
            · rw [hrec] at hres
              cases hres
              simp at hev
              rcases hev with rfl | hev
              · rfl
              · exact ih _ _ _ _ _ hrec ev hev
      · cases hres; simp at hev

/-- C2: with the fixed 1 MiB chunk size, an upload whose appends all
succeed issues exactly `ceil(totalBytes / 2^20)` appends with segment
indices strictly increasing 0..N-1 and finalize strictly after them (the
remaining trace holds only status polls and the settle wait); a failing
append prevents finalize entirely; a finalize response without
processing_info completes successfully without entering the poll loop;
and a 5 MB asset yields exactly 5 appends. -/
theorem C2_uploadMediaV2_chunk_protocol :
    (∀ totalBytes mt mc env fuel mid, env.initResult = Except.ok mid →
      (∀ i, env.appendResult i = Except.ok ()) →
      ∀ res trace, uploadMediaV2 totalBytes mt mc env fuel = some (res, trace) →
        ∃ rest, trace = UploadEvent.initEv totalBytes mt mc ::
            ((List.range' 0 (numChunks totalBytes)).map
              (fun i => UploadEvent.appendEv i (chunkLenAt totalBytes i)) ++
             UploadEvent.finalizeEv :: rest) ∧
          ∀ ev ∈ rest, ev = UploadEvent.statusEv ∨ ev = UploadEvent.settleEv) ∧
    (∀ totalBytes mt mc env fuel j e, j < numChunks totalBytes →
      env.appendResult j = Except.error e →
      ∀ res trace, uploadMediaV2 totalBytes mt mc env fuel = some (res, trace) →
        UploadEvent.finalizeEv ∉ trace) ∧
    (∀ totalBytes mt mc env fuel mid fr, env.initResult = Except.ok mid →
      (∀ i, env.appendResult i = Except.ok ()) →
      env.finalizeResult = Except.ok fr → orProcessingInfo fr = none →
      uploadMediaV2 totalBytes mt mc env fuel =
        some (Except.ok mid, UploadEvent.initEv totalBytes mt mc ::
          ((List.range' 0 (numChunks totalBytes)).map
            (fun i => UploadEvent.appendEv i (chunkLenAt totalBytes i)) ++
           [UploadEvent.finalizeEv, UploadEvent.settleEv]))) ∧
    numChunks (5 * 1000 * 1000) = 5 := by
  refine ⟨?_, ?_, ?_, by rfl⟩
  · intro totalBytes mt mc env fuel mid hinit happ res trace hup
    obtain ⟨initR, appendR, finR, statusR⟩ := env
    have h1 : initR = Except.ok mid := hinit
    subst h1
    generalize hN : numChunks totalBytes = N
    have ha := appendLoop_all_ok ⟨Except.ok mid, appendR, finR, statusR⟩ totalBytes happ N 0
    rw [uploadMediaV2.eq_def, hN, ha] at hup
    rcases finR with e | ⟨pi0, data0⟩
    · simp only [Option.some.injEq, Prod.mk.injEq] at hup
      exact ⟨[], hup.2.symm, by simp⟩
    · have hpoll : ∀ p : ProcessingInfo,
        (match waitForMediaProcessing statusR p fuel with
          | none => none
          | some (Except.error e, wevs) =>
              some ((Except.error e : Except String String),
                UploadEvent.initEv totalBytes mt mc ::
                  ((List.range' 0 N).map
                    (fun j => UploadEvent.appendEv j (chunkLenAt totalBytes j)) ++
                   UploadEvent.finalizeEv :: wevs))
          | some (Except.ok _, wevs) =>
              some (Except.ok mid, UploadEvent.initEv totalBytes mt mc ::
                  ((List.range' 0 N).map
                    (fun j => UploadEvent.appendEv j (chunkLenAt totalBytes j)) ++
                   UploadEvent.finalizeEv :: wevs))) = some (res, trace) →
        ∃ rest, trace = UploadEvent.initEv totalBytes mt mc ::
            ((List.range' 0 N).map
              (fun i => UploadEvent.appendEv i (chunkLenAt totalBytes i)) ++
             UploadEvent.finalizeEv :: rest) ∧
          ∀ ev ∈ rest, ev = UploadEvent.statusEv ∨ ev = UploadEvent.settleEv := by
        intro p hmatch
        rcases hw : waitForMediaProcessing statusR p fuel with _ | ⟨r, wevs⟩
        · rw [hw] at hmatch; cases hmatch
        · have hstatus := waitLoop_events_status_only statusR fuel p.state
            (orFiveSecs p.check_after_secs) 0 0 (r, wevs) hw
          rw [hw] at hmatch
          rcases r with e | u <;>
            simp only [Option.some.injEq, Prod.mk.injEq] at hmatch <;>
            exact ⟨wevs, hmatch.2.symm, fun ev hev => Or.inl (hstatus ev hev)⟩
      rcases pi0 with _ | p
      · rcases data0 with _ | ⟨id0, mk0, pin0⟩
        · simp only [orProcessingInfo, Option.bind, Option.some.injEq, Prod.mk.injEq] at hup
          exact ⟨[UploadEvent.settleEv], hup.2.symm, by simp⟩
        · rcases pin0 with _ | p
          · simp only [orProcessingInfo, Option.bind, Option.some.injEq, Prod.mk.injEq] at hup
            exact ⟨[UploadEvent.settleEv], hup.2.symm, by simp⟩
          · exact hpoll p hup
      · exact hpoll p hup
  · intro totalBytes mt mc env fuel j e hj herr res trace hup hmem
    obtain ⟨initR, appendR, finR, statusR⟩ := env
    rcases initR with e0 | mid
    · rw [show uploadMediaV2 totalBytes mt mc ⟨Except.error e0, appendR, finR, statusR⟩ fuel =
          some (Except.error e0, [UploadEvent.initEv totalBytes mt mc]) from rfl] at hup
      simp only [Option.some.injEq, Prod.mk.injEq] at hup
      rw [← hup.2] at hmem
      simp at hmem
    · rcases happL : appendLoop ⟨Except.ok mid, appendR, finR, statusR⟩ totalBytes 0
          (numChunks totalBytes) with ⟨ar, aevs⟩
      rcases ar with e1 | u
      · rw [uploadMediaV2.eq_def, happL] at hup
        simp only [Option.some.injEq, Prod.mk.injEq] at hup
        rw [← hup.2] at hmem
        simp at hmem
        obtain ⟨j', len, hev⟩ := appendLoop_events_append_only
          ⟨Except.ok mid, appendR, finR, statusR⟩ totalBytes
          (numChunks totalBytes) 0 UploadEvent.finalizeEv (by rw [happL]; exact hmem)
        cases hev
      · have hok : appendR j = Except.ok () :=
          appendLoop_ok_all_ok ⟨Except.ok mid, appendR, finR, statusR⟩ totalBytes
            (numChunks totalBytes) 0 (by rw [happL]) j (Nat.zero_le j) (by omega)
        have herr' : appendR j = Except.error e := herr
        rw [herr'] at hok
        cases hok
  · intro totalBytes mt mc env fuel mid fr hinit happ hfin hpi
    obtain ⟨initR, appendR, finR, statusR⟩ := env
    have h1 : initR = Except.ok mid := hinit
    subst h1
    have h2 : finR = Except.ok fr := hfin
    subst h2
    generalize hN : numChunks totalBytes = N
    have ha := appendLoop_all_ok ⟨Except.ok mid, appendR, Except.ok fr, statusR⟩
      totalBytes happ N 0
    rcases fr with ⟨pi0, data0⟩
    rcases pi0 with _ | p
    · rcases data0 with _ | ⟨id0, mk0, pin0⟩
      · rw [uploadMediaV2.eq_def, hN, ha]
        rfl
      · rcases pin0 with _ | p
        · rw [uploadMediaV2.eq_def, hN, ha]
          rfl
        · simp [orProcessingInfo] at hpi
    · simp [orProcessingInfo] at hpi

/-- C2 witness: an all-successful 5 MB upload whose finalize response has
no processing_info, via the third conjunct, plus the chunk count. -/
theorem C2_witness :
    uploadMediaV2 (5 * 1000 * 1000) "video/mp4" "amplify_video"
      ⟨Except.ok "m1", fun _ => Except.ok (), Except.ok ⟨none, none⟩, fun _ => ⟨none, none⟩⟩ 0 =
      some (Except.ok "m1",
        UploadEvent.initEv (5 * 1000 * 1000) "video/mp4" "amplify_video" ::
          ((List.range' 0 (numChunks (5 * 1000 * 1000))).map
            (fun i => UploadEvent.appendEv i (chunkLenAt (5 * 1000 * 1000) i)) ++
           [UploadEvent.finalizeEv, UploadEvent.settleEv])) ∧
    numChunks (5 * 1000 * 1000) = 5 :=
  ⟨C2_uploadMediaV2_chunk_protocol.2.2.1 (5 * 1000 * 1000) "video/mp4" "amplify_video"
      ⟨Except.ok "m1", fun _ => Except.ok (), Except.ok ⟨none, none⟩, fun _ => ⟨none, none⟩⟩
      0 "m1" ⟨none, none⟩ rfl (fun _ => rfl) rfl rfl,
    C2_uploadMediaV2_chunk_protocol.2.2.2⟩

/-- The falsy-default poll delay is always at least one second. -/
theorem orFiveSecs_pos (o : Option Nat) : 1 ≤ orFiveSecs o := by
  rcases o with _ | n
  · simp [orFiveSecs]
  · rcases n with _ | n <;> simp [orFiveSecs]

/-- If every status poll reports a processing_info whose state is still
pending or in_progress, then whenever the poll loop returns at all it
returns the wall-clock timeout error. -/
theorem waitLoop_pending_forever_timeout (statusAt : Nat → MediaStatusResponse)
    (hstat : ∀ n, ∃ info, orProcessingInfo (statusAt n) = some info ∧
      (info.state = "pending" ∨ info.state = "in_progress")) :
    ∀ fuel state cas elapsed idx res,
      (state = "pending" ∨ state = "in_progress") →
      waitLoop statusAt fuel state cas elapsed idx = some res →
      res.1 = Except.error mediaTimeoutMsg := by
  intro fuel
  induction fuel with
  | zero =>
      intro state cas elapsed idx res hstate hres
      rw [waitLoop, if_pos hstate] at hres
      split at hres
      · cases hres; rfl
      · cases hres
  | succ fuel ih =>
      intro state cas elapsed idx res hstate hres
      rw [waitLoop, if_pos hstate] at hres
      split at hres
      · cases hres; rfl
      · obtain ⟨info, hpi, hpstate⟩ := hstat idx
        rw [hpi] at hres
        simp only at hres
        rcases hrec : waitLoop statusAt fuel info.state (orFiveSecs info.check_after_secs)
            (elapsed + cas * 1000) (idx + 1) with _ | ⟨r, evs⟩
        · rw [hrec] at hres; cases hres
        · rw [hrec] at hres
          cases hres
          exact ih _ _ _ _ (r, evs) hpstate hrec

/-- If processing never completes, the loop does terminate with the
timeout error once enough fuel is provided for the wall-clock ceiling:
every iteration sleeps at least one second, so the ceiling is reached. -/
theorem waitLoop_timeout_reached (statusAt : Nat → MediaStatusResponse)
    (hstat : ∀ n, ∃ info, orProcessingInfo (statusAt n) = some info ∧
      (info.state = "pending" ∨ info.state = "in_progress")) :
    ∀ fuel state cas elapsed idx,
      (state = "pending" ∨ state = "in_progress") → 1 ≤ cas →
      MAX_PROCESSING_WAIT_MS < elapsed + 1000 * fuel →
      ∃ evs, waitLoop statusAt fuel state cas elapsed idx =
        some (Except.error mediaTimeoutMsg, evs) := by
  intro fuel
  induction fuel with
  | zero =>
      intro state cas elapsed idx hstate hcas hbound
      refine ⟨[], ?_⟩
      rw [waitLoop, if_pos hstate, if_pos (by omega)]
  | succ fuel ih =>
      intro state cas elapsed idx hstate hcas hbound
      by_cases ht : elapsed > MAX_PROCESSING_WAIT_MS
      · exact ⟨[], by rw [waitLoop, if_pos hstate, if_pos ht]⟩
      · obtain ⟨info, hpi, hpstate⟩ := hstat idx
        obtain ⟨evs, hevs⟩ := ih info.state (orFiveSecs info.check_after_secs)
          (elapsed + cas * 1000) (idx + 1) hpstate (orFiveSecs_pos _) (by omega)
        refine ⟨UploadEvent.statusEv :: evs, ?_⟩
        rw [waitLoop, if_pos hstate, if_neg ht]
        simp only [hpi]
        rw [hevs]

/-- C6: if server-side processing remains pending or in_progress at every
poll, the status loop fails with the wall-clock timeout error — any
returned outcome is that error, and with fuel covering the 10-minute
ceiling the loop does return it — while an initial platform-reported
failed state raises the distinct processing-failed error; the two error
messages differ. -/
theorem C6_waitForMediaProcessing_timeout_distinct :
    (∀ statusAt (info0 : ProcessingInfo) fuel res,
      (∀ n, ∃ info, orProcessingInfo (statusAt n) = some info ∧
        (info.state = "pending" ∨ info.state = "in_progress")) →
      (info0.state = "pending" ∨ info0.state = "in_progress") →
      waitForMediaProcessing statusAt info0 fuel = some res →
      res.1 = Except.error mediaTimeoutMsg) ∧
    (∀ statusAt (info0 : ProcessingInfo) fuel,
      (∀ n, ∃ info, orProcessingInfo (statusAt n) = some info ∧
        (info.state = "pending" ∨ info.state = "in_progress")) →
      (info0.state = "pending" ∨ info0.state = "in_progress") → 601 ≤ fuel →
      ∃ evs, waitForMediaProcessing statusAt info0 fuel =
        some (Except.error mediaTimeoutMsg, evs)) ∧
    (∀ statusAt (info0 : ProcessingInfo) fuel, info0.state = "failed" →
      waitForMediaProcessing statusAt info0 fuel =
        some (Except.error mediaProcessingFailedMsg, [])) ∧
    mediaTimeoutMsg ≠ mediaProcessingFailedMsg := by
  refine ⟨?_, ?_, ?_, by decide⟩
  · intro statusAt info0 fuel res hstat hstate hres
    exact waitLoop_pending_forever_timeout statusAt hstat fuel info0.state
      (orFiveSecs info0.check_after_secs) 0 0 res hstate hres
  · intro statusAt info0 fuel hstat hstate hfuel
    exact waitLoop_timeout_reached statusAt hstat fuel info0.state
      (orFiveSecs info0.check_after_secs) 0 0 hstate (orFiveSecs_pos _)
      (by simp only [MAX_PROCESSING_WAIT_MS]; omega)
  · intro statusAt info0 fuel hstate
    rw [waitForMediaProcessing, hstate, waitLoop.eq_def]
    rw [if_neg (by decide)]
    rfl

/-- C6 witness: a status endpoint that always answers pending with a
601-second suggested delay reaches the ceiling and times out. -/
theorem C6_witness :
    (waitForMediaProcessing (fun _ => ⟨some ⟨"pending", some 601, none⟩, none⟩)
        ⟨"pending", some 601, none⟩ 601).map Prod.fst =
      some (Except.error mediaTimeoutMsg) := by
  obtain ⟨evs, he⟩ := C6_waitForMediaProcessing_timeout_distinct.2.1
    (fun _ => ⟨some ⟨"pending", some 601, none⟩, none⟩) ⟨"pending", some 601, none⟩ 601
    (fun _ => ⟨⟨"pending", some 601, none⟩, rfl, Or.inl rfl⟩) (Or.inl rfl) (le_refl 601)
  rw [he]
  rfl

/-! ## Theorems: pipeline orchestrator (C3, C4) -/

/-- C3: when search, content generation and image generation succeed and
video generation fails, the video step is marked failed with its error
recorded, the run continues to publish with mediaType image, and on
publish success the final status is completed, with no propagated error. -/
theorem C3_video_failure_degrades_to_image_completed :
    ∀ runId env results content imagePath ve pid,
      env.searchResult = Except.ok results → results ≠ [] →
      env.contentResult = Except.ok content →
      env.imageResult = Except.ok imagePath →
      env.videoResult = Except.error ve →
      env.postImageResult = Except.ok pid →
      (generatePost runId env).finalRun.videoGeneration.status = StepStatus.failed ∧
      (generatePost runId env).finalRun.videoGeneration.error = some ve ∧
      (generatePost runId env).finalRun.posting.status = StepStatus.completed ∧
      ((generatePost runId env).finalRun.posting.data.map (fun d => d.mediaType)) =
        some "image" ∧
      (generatePost runId env).finalRun.status = RunStatus.completed ∧
      (generatePost runId env).thrown = none := by
  intro runId env results content imagePath ve pid hs hne hc hi hv hp
  obtain ⟨sr, cr, ir, ik, pp, vr, vk, pvr, pir⟩ := env
  have h1 : sr = Except.ok results := hs
  have h2 : cr = Except.ok content := hc
  have h3 : ir = Except.ok imagePath := hi
  have h4 : vr = Except.error ve := hv
  have h5 : pir = Except.ok pid := hp
  subst h1 h2 h3 h4 h5
  rcases results with _ | ⟨r, rs⟩
  · exact absurd rfl hne
  · exact ⟨rfl, rfl, rfl, rfl, rfl, rfl⟩

/-- C3 witness: a concrete run with failing video generation and a
successful image publish. -/
theorem C3_witness :
    (generatePost "r" ⟨Except.ok [⟨"t", "u", "c", 0⟩], Except.ok ⟨"pc", "ip", "vp", "st"⟩,
        Except.ok "img.png", "ik", "veo", Except.error "video quota", "vk",
        Except.ok "pv1", Except.ok "pi1"⟩).finalRun.status = RunStatus.completed ∧
    (generatePost "r" ⟨Except.ok [⟨"t", "u", "c", 0⟩], Except.ok ⟨"pc", "ip", "vp", "st"⟩,
        Except.ok "img.png", "ik", "veo", Except.error "video quota", "vk",
        Except.ok "pv1", Except.ok "pi1"⟩).finalRun.videoGeneration.status =
      StepStatus.failed := by
  have h := C3_video_failure_degrades_to_image_completed "r"
    ⟨Except.ok [⟨"t", "u", "c", 0⟩], Except.ok ⟨"pc", "ip", "vp", "st"⟩,
      Except.ok "img.png", "ik", "veo", Except.error "video quota", "vk",
      Except.ok "pv1", Except.ok "pi1"⟩
    [⟨"t", "u", "c", 0⟩] ⟨"pc", "ip", "vp", "st"⟩ "img.png" "video quota" "pi1"
    rfl (by simp) rfl rfl rfl rfl
  exact ⟨h.2.2.2.2.1, h.1⟩

/-- C4 counterexample: a run whose image generation throws ends with the
image step still in_progress and no step-level error recorded — the step
record is NOT marked failed, contrary to the claim; only the top-level
status and error are set. -/
theorem C4_counterexample :
    (generatePost "r" ⟨Except.ok [⟨"t", "u", "c", 0⟩], Except.ok ⟨"pc", "ip", "vp", "st"⟩,
        Except.error "image generation failed", "ik", "veo", Except.ok ("v.mp4", "veo"),
        "vk", Except.ok "pv1", Except.ok "pi1"⟩).finalRun.imageGeneration.status =
      StepStatus.in_progress ∧
    (generatePost "r" ⟨Except.ok [⟨"t", "u", "c", 0⟩], Except.ok ⟨"pc", "ip", "vp", "st"⟩,
        Except.error "image generation failed", "ik", "veo", Except.ok ("v.mp4", "veo"),
        "vk", Except.ok "pv1", Except.ok "pi1"⟩).finalRun.imageGeneration.status ≠
      StepStatus.failed ∧
    (generatePost "r" ⟨Except.ok [⟨"t", "u", "c", 0⟩], Except.ok ⟨"pc", "ip", "vp", "st"⟩,
        Except.error "image generation failed", "ik", "veo", Except.ok ("v.mp4", "veo"),
        "vk", Except.ok "pv1", Except.ok "pi1"⟩).finalRun.imageGeneration.error = none ∧
    (generatePost "r" ⟨Except.ok [⟨"t", "u", "c", 0⟩], Except.ok ⟨"pc", "ip", "vp", "st"⟩,
        Except.error "image generation failed", "ik", "veo", Except.ok ("v.mp4", "veo"),
        "vk", Except.ok "pv1", Except.ok "pi1"⟩).finalRun.status = RunStatus.failed :=
  ⟨rfl, by decide, rfl, rfl⟩

/-- C4 (amended): when image generation or publish fails, the top-level
status of the run is set to failed with the error recorded at top level,
that final failed record is the last one persisted before the error
propagates, but the record of the failing step itself is left in_progress with no
step-level error — only the search and video steps ever get step-level
failure marks. -/
theorem C4_failure_marks_run_not_step :
    (∀ runId env results content e,
      env.searchResult = Except.ok results → results ≠ [] →
      env.contentResult = Except.ok content →
      env.imageResult = Except.error e →
      (generatePost runId env).finalRun.status = RunStatus.failed ∧
      (generatePost runId env).finalRun.error = some e ∧
      (generatePost runId env).finalRun.imageGeneration.status = StepStatus.in_progress ∧
      (generatePost runId env).finalRun.imageGeneration.error = none ∧
      (generatePost runId env).snapshots.getLast? = some (generatePost runId env).finalRun ∧
      (generatePost runId env).thrown = some e) ∧
    (∀ runId env results content imagePath ve e,
      env.searchResult = Except.ok results → results ≠ [] →
      env.contentResult = Except.ok content →
      env.imageResult = Except.ok imagePath →
      env.videoResult = Except.error ve →
      env.postImageResult = Except.error e →
      (generatePost runId env).finalRun.status = RunStatus.failed ∧
      (generatePost runId env).finalRun.error = some e ∧
      (generatePost runId env).finalRun.posting.status = StepStatus.in_progress ∧
      (generatePost runId env).finalRun.posting.error = none ∧
      (generatePost runId env).snapshots.getLast? = some (generatePost runId env).finalRun ∧
      (generatePost runId env).thrown = some e) ∧
    (∀ runId env results content imagePath vp prov e,
      env.searchResult = Except.ok results → results ≠ [] →
      env.contentResult = Except.ok content →
      env.imageResult = Except.ok imagePath →
      env.videoResult = Except.ok (vp, prov) →
      env.postVideoResult = Except.error e →
      (generatePost runId env).finalRun.status = RunStatus.failed ∧
      (generatePost runId env).finalRun.error = some e ∧
      (generatePost runId env).finalRun.posting.status = StepStatus.in_progress ∧
      (generatePost runId env).finalRun.posting.error = none ∧
      (generatePost runId env).snapshots.getLast? = some (generatePost runId env).finalRun ∧
      (generatePost runId env).thrown = some e) := by
  refine ⟨?_, ?_, ?_⟩
  · intro runId env results content e hs hne hc hi
    obtain ⟨sr, cr, ir, ik, pp, vr, vk, pvr, pir⟩ := env
    have h1 : sr = Except.ok results := hs
    have h2 : cr = Except.ok content := hc
    have h3 : ir = Except.error e := hi
    subst h1 h2 h3
    rcases results with _ | ⟨r, rs⟩
    · exact absurd rfl hne
    · exact ⟨rfl, rfl, rfl, rfl, rfl, rfl⟩
  · intro runId env results content imagePath ve e hs hne hc hi hv hp
    obtain ⟨sr, cr, ir, ik, pp, vr, vk, pvr, pir⟩ := env
    have h1 : sr = Except.ok results := hs
    have h2 : cr = Except.ok content := hc
    have h3 : ir = Except.ok imagePath := hi
    have h4 : vr = Except.error ve := hv
    have h5 : pir = Except.error e := hp
    subst h1 h2 h3 h4 h5
    rcases results with _ | ⟨r, rs⟩
    · exact absurd rfl hne
    · exact ⟨rfl, rfl, rfl, rfl, rfl, rfl⟩
  · intro runId env results content imagePath vp prov e hs hne hc hi hv hp
    obtain ⟨sr, cr, ir, ik, pp, vr, vk, pvr, pir⟩ := env
    have h1 : sr = Except.ok results := hs
    have h2 : cr = Except.ok content := hc
    have h3 : ir = Except.ok imagePath := hi
    have h4 : vr = Except.ok (vp, prov) := hv
    have h5 : pvr = Except.error e := hp
    subst h1 h2 h3 h4 h5
    rcases results with _ | ⟨r, rs⟩
    · exact absurd rfl hne
    · exact ⟨rfl, rfl, rfl, rfl, rfl, rfl⟩

/-- C4 witness: the amended theorem applied at a concrete failing image
step and at a concrete publish failure after successful video generation. -/
theorem C4_witness :
    (generatePost "r" ⟨Except.ok [⟨"t", "u", "c", 0⟩], Except.ok ⟨"pc", "ip", "vp", "st"⟩,
        Except.error "boom", "ik", "veo", Except.ok ("v.mp4", "veo"), "vk",
        Except.ok "pv1", Except.ok "pi1"⟩).finalRun.status = RunStatus.failed ∧
    (generatePost "r" ⟨Except.ok [⟨"t", "u", "c", 0⟩], Except.ok ⟨"pc", "ip", "vp", "st"⟩,
        Except.error "boom", "ik", "veo", Except.ok ("v.mp4", "veo"), "vk",
        Except.ok "pv1", Except.ok "pi1"⟩).finalRun.imageGeneration.status =
      StepStatus.in_progress ∧
    (generatePost "r" ⟨Except.ok [⟨"t", "u", "c", 0⟩], Except.ok ⟨"pc", "ip", "vp", "st"⟩,
        Except.ok "img.png", "ik", "veo", Except.ok ("v.mp4", "veo"), "vk",
        Except.error "upload timeout", Except.ok "pi1"⟩).finalRun.status =
      RunStatus.failed ∧
    (generatePost "r" ⟨Except.ok [⟨"t", "u", "c", 0⟩], Except.ok ⟨"pc", "ip", "vp", "st"⟩,
        Except.ok "img.png", "ik", "veo", Except.ok ("v.mp4", "veo"), "vk",
        Except.error "upload timeout", Except.ok "pi1"⟩).finalRun.posting.status =
      StepStatus.in_progress := by
  have h := C4_failure_marks_run_not_step.1 "r"
    ⟨Except.ok [⟨"t", "u", "c", 0⟩], Except.ok ⟨"pc", "ip", "vp", "st"⟩,
      Except.error "boom", "ik", "veo", Except.ok ("v.mp4", "veo"), "vk",
      Except.ok "pv1", Except.ok "pi1"⟩
    [⟨"t", "u", "c", 0⟩] ⟨"pc", "ip", "vp", "st"⟩ "boom" rfl (by simp) rfl rfl
  have h3 := C4_failure_marks_run_not_step.2.2 "r"
    ⟨Except.ok [⟨"t", "u", "c", 0⟩], Except.ok ⟨"pc", "ip", "vp", "st"⟩,
      Except.ok "img.png", "ik", "veo", Except.ok ("v.mp4", "veo"), "vk",
      Except.error "upload timeout", Except.ok "pi1"⟩
    [⟨"t", "u", "c", 0⟩] ⟨"pc", "ip", "vp", "st"⟩ "img.png" "v.mp4" "veo" "upload timeout"
    rfl (by simp) rfl rfl rfl rfl
  exact ⟨h.1, h.2.2.1, h3.1, h3.2.2.1⟩

/-! ## Theorems: replay tool (C5) -/

/-- C5 counterexample: a stored record whose posting step status is
completed but whose posting data records no postId slips past the guard:
replay post issues a platform post and rewrites the record, instead of
failing with the precondition error the claim requires for every record
with a completed publish step. -/
theorem C5_counterexample :
    completedNoPostIdRecord.posting.status = StepStatus.completed ∧
    (repostRun (some completedNoPostIdRecord) allOkReplayEnv).postsIssued = 1 ∧
    (repostRun (some completedNoPostIdRecord) allOkReplayEnv).result =
      ReplayResult.posted "pi1" "image" :=
  ⟨rfl, rfl, rfl⟩

/-- C5 (amended): for every record whose posting step is completed AND
whose posting data holds a truthy postId, replay post fails with the
idempotency-guard error (non-zero exit), issues no platform post, and
persists nothing. A completed posting step without a recorded postId is
not guarded. -/
theorem C5_alreadyPosted_guard (w : WorkflowRun) (env : ReplayEnv)
    (h1 : w.posting.status = StepStatus.completed)
    (h2 : truthyStr (postingPostId w) = true) :
    repostRun (some w) env =
      { result := ReplayResult.alreadyPosted, postsIssued := 0, saved := [] } := by
  simp [repostRun, h1, h2]

/-- C5 witness: the guard fires on a record with a recorded postId. -/
theorem C5_witness :
    repostRun (some completedWithPostIdRecord) allOkReplayEnv =
      { result := ReplayResult.alreadyPosted, postsIssued := 0, saved := [] } :=
  C5_alreadyPosted_guard _ _ rfl rfl

/-! ## Theorems: provider fallback selector (C7) -/

/-- C7: generateImage tries the ordered model list strictly in order and
returns the first success; it moves to the fallback exactly on a
recoverable error; a non-recoverable error aborts immediately without
calling the fallback; and when both models fail recoverably it throws the
aggregate error referencing the message of the last model. -/
theorem C7_generateImage_ordered_fallback :
    (∀ tryGen p, tryGen PRIMARY_MODEL = Except.ok p →
      generateImage tryGen = (Except.ok p, [PRIMARY_MODEL])) ∧
    (∀ tryGen e p, tryGen PRIMARY_MODEL = Except.error e → isRecoverableError e = true →
      tryGen FALLBACK_MODEL = Except.ok p →
      generateImage tryGen = (Except.ok p, [PRIMARY_MODEL, FALLBACK_MODEL])) ∧
    (∀ tryGen e, tryGen PRIMARY_MODEL = Except.error e → isRecoverableError e = false →
      generateImage tryGen = (Except.error e, [PRIMARY_MODEL])) ∧
    (∀ tryGen e1 e2, tryGen PRIMARY_MODEL = Except.error e1 → isRecoverableError e1 = true →
      tryGen FALLBACK_MODEL = Except.error e2 → isRecoverableError e2 = true →
      generateImage tryGen =
        (Except.error (allModelsMsg (some e2)), [PRIMARY_MODEL, FALLBACK_MODEL])) := by
  refine ⟨?_, ?_, ?_, ?_⟩
  · intro tryGen p h
    simp [generateImage, generateImageLoop, IMAGE_MODELS, h]
  · intro tryGen e p h1 h2 h3
    simp [generateImage, generateImageLoop, IMAGE_MODELS, h1, h2, h3]
  · intro tryGen e h1 h2
    simp [generateImage, generateImageLoop, IMAGE_MODELS, h1, h2]
  · intro tryGen e1 e2 h1 h2 h3 h4
    simp [generateImage, generateImageLoop, IMAGE_MODELS, h1, h2, h3, h4]

/-- C7 witness: primary rate-limited, fallback succeeds. -/
theorem C7_witness :
    generateImage (fun id => if id == PRIMARY_MODEL
        then Except.error "429 rate limited"
        else Except.ok "img.png") =
      (Except.ok "img.png", [PRIMARY_MODEL, FALLBACK_MODEL]) :=
  C7_generateImage_ordered_fallback.2.1
    (fun id => if id == PRIMARY_MODEL then Except.error "429 rate limited"
      else Except.ok "img.png")
    "429 rate limited" "img.png" rfl (by decide) rfl

/-! ## Theorems: forward-only step transitions (C8) -/

/-- C8: within a single orchestrator execution the status history of every step
across the persisted snapshots moves strictly forward (never back to
pending or in_progress from a terminal state); and a replay post rewrites
only the posting step — every record it persists agrees with the stored
record on all other steps and has the posting step completed. -/
theorem C8_forward_only_transitions :
    (∀ runId env, runForwardOk (generatePost runId env) = true) ∧
    (∀ w env, (repostRun (some w) env).saved.all
      (fun w2 => repostPreservesSteps w w2 && w2.posting.status == StepStatus.completed) =
      true) := by
  constructor
  · intro runId env
    obtain ⟨sr, cr, ir, ik, pp, vr, vk, pvr, pir⟩ := env
    rcases sr with e | nr
    · rfl
    · rcases nr with _ | ⟨r, rs⟩
      · rfl
      · rcases cr with e | content
        · rfl
        · rcases ir with e | ipath
          · rfl
          · rcases vr with e | ⟨vp, prov⟩
            · rcases pir with e2 | pid <;> rfl
            · rcases pvr with e2 | pid <;> rfl
  · intro w env
    rw [repostRun.eq_def]
    simp only
    split
    · rfl
    · split
      · rfl
      · split
        · rfl
        · split
          · rfl
          · split
            · rfl
            · split
              · rfl
              · split
                · split
                  · rfl
                  · simp [finishRepost, repostPreservesSteps]
                · split
                  · split
                    · rfl
                    · simp [finishRepost, repostPreservesSteps]
                  · rfl

/-! ## Theorems: video API selection (C9) -/

/-- C9 counterexample: with both providers configured and the preferred
provider (veo) failing with an error the image-path classifier deems
recoverable, generateVideo propagates the error and never calls the
alternate provider — the video path does not share the recoverable-error
provider-fallback state machine of the image path. -/
theorem C9_counterexample :
    generateVideo ⟨none, true, true, Except.error "429 RESOURCE_EXHAUSTED quota",
        Except.ok "sora.mp4"⟩ =
      (Except.error "429 RESOURCE_EXHAUSTED quota", [VideoApiProvider.veo]) ∧
    isRecoverableError "429 RESOURCE_EXHAUSTED quota" = true :=
  ⟨rfl, by decide⟩

/-- C9 (amended): the provider-level fallback of the video path is
configuration-based only: the configured preferred provider is called
exactly once and any error it raises (recoverable or not) propagates
without trying the alternate; the alternate provider is used exactly when
the preferred one lacks credentials and the alternate has them; with
neither configured the call fails without invoking any provider. -/
theorem C9_generateVideo_config_fallback :
    ∀ env p, getVideoApiProvider env.preferredRaw = Except.ok p →
      (isProviderConfigured env p = true →
        generateVideo env =
          (match generateVideoWithProvider env p with
            | Except.ok v => Except.ok (v, p)
            | Except.error e => Except.error e, [p])) ∧
      (isProviderConfigured env p = false →
          isProviderConfigured env (alternateOf p) = true →
        generateVideo env =
          (match generateVideoWithProvider env (alternateOf p) with
            | Except.ok v => Except.ok (v, alternateOf p)
            | Except.error e => Except.error e, [alternateOf p])) ∧
      (isProviderConfigured env p = false →
          isProviderConfigured env (alternateOf p) = false →
        generateVideo env = (Except.error noVideoApiMsg, [])) := by
  intro env p hp
  refine ⟨fun h1 => ?_, fun h1 h2 => ?_, fun h1 h2 => ?_⟩ <;>
    simp [generateVideo, hp, h1]
  · simp [h2]
  · simp [h2]

/-- C9 witness: veo preferred and configured, sora unconfigured — veo is
called once and its result returned. -/
theorem C9_witness :
    generateVideo ⟨none, true, false, Except.ok "v.mp4", Except.error "no"⟩ =
      (Except.ok ("v.mp4", VideoApiProvider.veo), [VideoApiProvider.veo]) :=
  (C9_generateVideo_config_fallback
    ⟨none, true, false, Except.ok "v.mp4", Except.error "no"⟩
    VideoApiProvider.veo rfl).1 rfl

/-! ## Theorems: the partial run status is never assigned (C10) -/

/-- C10: every record the orchestrator persists (and its final record)
has a status other than partial, a fresh record starts as running, every
record the replay tool persists has status completed, and yet the replay
list rendering keeps a dedicated branch for the partial status. -/
theorem C10_partial_status_unreachable :
    (∀ runId env,
      ((generatePost runId env).snapshots.all
          (fun w => w.status != RunStatus.partialStatus) &&
        (generatePost runId env).finalRun.status != RunStatus.partialStatus) = true) ∧
    (∀ w env, (repostRun (some w) env).saved.all
      (fun w2 => w2.status == RunStatus.completed) = true) ∧
    (∀ runId now, (createWorkflowRun runId now).status = RunStatus.running) ∧
    statusIcon RunStatus.partialStatus = "[PARTIAL]" := by
  refine ⟨?_, ?_, fun runId now => rfl, rfl⟩
  · intro runId env
    obtain ⟨sr, cr, ir, ik, pp, vr, vk, pvr, pir⟩ := env
    rcases sr with e | nr
    · rfl
    · rcases nr with _ | ⟨r, rs⟩
      · rfl
      · rcases cr with e | content
        · rfl
        · rcases ir with e | ipath
          · rfl
          · rcases vr with e | ⟨vp, prov⟩
            · rcases pir with e2 | pid <;> rfl
            · rcases pvr with e2 | pid <;> rfl
  · intro w env
    rw [repostRun.eq_def]
    simp only
    split
    · rfl
    · split
      · rfl
      · split
        · rfl
        · split
          · rfl
          · split
            · rfl
            · split
              · rfl
              · split
                · split
                  · rfl
                  · simp [finishRepost]
                · split
                  · split
                    · rfl
                    · simp [finishRepost]
                  · rfl

end SCG
